import Mathlib

/-!
Shallow embedding of the wunder-obs tile ingestion and accumulation-QC pipeline
(source files: processing/download_async.py, processing/driver.py,
processing/process_data.py, processing/run_realtime.py, processing/configs.py).

Modelling conventions:
* timestamps (`dateutc`, window lengths, tolerances) are integers, in minutes;
* real-valued observation fields (precipitation counter, coordinates) are exact
  rationals (`ℚ`); a pandas `NaN` / missing value is `Option.none`;
* a pandas `DataFrame` of observations is a `List Obs` in row order;
* side-effecting scripts are embedded as the sequence of externally visible
  steps they take (file operations, subprocess invocations, sleeps).
-/

namespace WunderObs

/-- One observation row, with the six columns built by
`parse_info_tiles` in download_async.py (`COLUMNS = ['siteid', 'lon', 'lat',
'dateutc', 'precip', 'localhour']`).  `precip` is the daily cumulative rain
counter `dailyrainin`, which may be missing (pandas `NaN`). -/
structure Obs where
  siteid : String
  lon : ℚ
  lat : ℚ
  dateutc : ℤ
  precip : Option ℚ
  localhour : ℕ
deriving DecidableEq, Repr

/-- Dedup key named by the spec: `(siteid, timestamp)`. -/
def obsKey (r : Obs) : String × ℤ := (r.siteid, r.dateutc)

/-- Tail of `parse_info_tiles` (download_async.py lines 248-253): the per-tile
read-modify-write.  `df = pd.concat([df, pd.DataFrame(data_dict)])` followed by
`df = df.loc[df['dateutc'] >= purge_dt]`.  Note there is no duplicate removal
of any kind in this step. -/
def mergeTile (existing incoming : List Obs) (purge : ℤ) : List Obs :=
  (existing ++ incoming).filter (fun r => decide (purge ≤ r.dateutc))

/-- Helper for `dedupFirst`: keeps the first occurrence of every record,
skipping records already seen.  This reproduces pandas
`DataFrame.drop_duplicates()` (keep='first', compared on all columns). -/
def dedupFirstAux (seen : List Obs) : List Obs → List Obs
  | [] => []
  | a :: as =>
      if a ∈ seen then dedupFirstAux seen as
      else a :: dedupFirstAux (a :: seen) as

/-- Pandas `drop_duplicates()` on whole rows, keeping first occurrences. -/
def dedupFirst (l : List Obs) : List Obs := dedupFirstAux [] l

/-- Sort key used by `sort_values(by=['siteid', 'dateutc'])`. -/
def obsLe (a b : Obs) : Bool :=
  decide (a.siteid < b.siteid) ||
    (a.siteid == b.siteid && decide (a.dateutc ≤ b.dateutc))

/-- Cross-tile merged-store build, `process_data` in driver.py lines 204-213:
concatenate all tile files, `drop_duplicates()` (whole-row), sort by
`(siteid, dateutc)`, then `dropna(subset='precip')`. -/
def mergedStore (tiles : List (List Obs)) : List Obs :=
  ((dedupFirst tiles.flatten).mergeSort obsLe).filter (fun r => r.precip.isSome)

/-! ## Accumulation QC engine (`data_calc_qc`, driver.py lines 34-94)

The per-site history `data` is the dataframe slice for one site, already sorted
ascending by `dateutc` (create_tile_output sorts before calling). -/

/-- Configured nearest-neighbor tolerance, configs.py: `MAX_DIFF_MINUTES = 5`. -/
def MAX_DIFF_MINUTES : ℤ := 5

/-- Helper for pandas `Series.idxmin()`: first position attaining the minimum
(strict `<` keeps the earliest index, as pandas does). -/
def argminAux (best : ℤ) (bestIdx idx : ℕ) : List ℤ → ℕ
  | [] => bestIdx
  | a :: rest =>
      if a < best then argminAux a idx (idx + 1) rest
      else argminAux best bestIdx (idx + 1) rest

/-- First position of the minimum of a list (0 on the empty list, which the
source never hits: a site always has at least one observation). -/
def idxmin : List ℤ → ℕ
  | [] => 0
  | d :: rest => argminAux d 0 1 rest

/-- `deltas_start = (start_dt - data.dateutc).abs()` with
`start_dt = end_dt - window`. -/
def deltasStart (endDt window : ℤ) (data : List Obs) : List ℤ :=
  data.map (fun r => |endDt - window - r.dateutc|)

/-- `deltas_end = (end_dt - data.dateutc).abs()`. -/
def deltasEnd (endDt : ℤ) (data : List Obs) : List ℤ :=
  data.map (fun r => |endDt - r.dateutc|)

/-- The tolerance gate of `data_calc_qc` (driver.py lines 45-46):
`deltas_start.loc[deltas_start.idxmin()] <= MAX_DIFF_MINUTES`, i.e. the
minimal distance between an observation time and the ideal window start is
within `maxDiff`.  False for an empty history. -/
def startTolerancePasses (maxDiff endDt window : ℤ) (data : List Obs) : Bool :=
  match deltasStart endDt window data with
  | [] => false
  | d :: rest => decide (rest.foldl min d ≤ maxDiff)

/-- `filtered_df = data.loc[deltas_start.idxmin():deltas_end.idxmin()]`:
the positional slice from the observation nearest the window start to the
observation nearest the window end, both inclusive. -/
def windowSlice (endDt window : ℤ) (data : List Obs) : List Obs :=
  let iS := idxmin (deltasStart endDt window data)
  let iE := idxmin (deltasEnd endDt data)
  (data.drop iS).take (iE + 1 - iS)

/-- A negative step of the precip counter between two consecutive rows
(`dx < 0` in `np.diff(filtered_df['precip'])`).  A missing value makes the
difference NaN, and `NaN < 0` is false. -/
def stepNeg (a b : Obs) : Bool :=
  match a.precip, b.precip with
  | some x, some y => decide (y < x)
  | _, _ => false

/-- `idx = np.where(dx < 0)`: positions of the negative steps. -/
def negIdxs (l : List Obs) : List ℕ :=
  ((l.zip l.tail).enum.filter (fun p => stepNeg p.2.1 p.2.2)).map (fun p => p.1)

/-- Python `round(x, 2)`.  Modelled as rounding an exact rational to the
nearest hundredth (the float version rounds the nearest binary double;
the two agree away from exact `.005` ties). -/
def round2 (q : ℚ) : ℚ := (round (q * 100) : ℚ) / 100

/-- `filtered_df.iloc[-1]['precip'] - filtered_df.iloc[0]['precip']`: the raw
last-minus-first total, `none` when either endpoint is missing (NaN, which
fails the `np.isfinite` gate on line 57). -/
def sliceAmount (l : List Obs) : Option ℚ :=
  match l.head?, l.getLast? with
  | some f, some z =>
      match f.precip, z.precip with
      | some pf, some pz => some (pz - pf)
      | _, _ => none
  | _, _ => none

/-- The CASE 2 correction (driver.py lines 73-78): add the pre-reset value
`max_daily_val = filtered_df['precip'].iloc[i]` to every entry after the reset
(which includes the last entry, since `i + 1 ≤ length - 1`), then return the
new `last - first` (unrounded in the source). -/
def correctedAmount (l : List Obs) (i : ℕ) : Option ℚ :=
  match l.head?, l.getLast?, l.get? i with
  | some f, some z, some stepOb =>
      match f.precip, z.precip, stepOb.precip with
      | some pf, some pz, some m => some (pz + m - pf)
      | _, _, _ => none
  | _, _, _ => none

/-- Reset detection on one window slice (driver.py lines 50-91), applied after
the tolerance gate: CASE 1 monotone → rounded `last - first`; CASE 2 single
negative step at a 23→0 or 0→1 local-hour boundary → rebased total, any other
single-step boundary → NaN; CASE 3 two or more negative steps → NaN; a
non-finite raw total → NaN. -/
def qcSlice (filtered : List Obs) : Option ℚ :=
  match sliceAmount filtered with
  | none => none
  | some amt =>
      match negIdxs filtered with
      | [] => some (round2 amt)
      | [i] =>
          match filtered.get? i, filtered.get? (i + 1) with
          | some a, some b =>
              if (a.localhour = 23 ∧ b.localhour = 0) ∨
                 (a.localhour = 0 ∧ b.localhour = 1) then
                correctedAmount filtered i
              else none
          | _, _ => none
      | _ :: _ :: _ => none

/-- `data_calc_qc(end_dt, data, counts, window)` from driver.py, with the
`MAX_DIFF_MINUTES` config passed explicitly.  Returns `none` where the source
returns `np.nan` ("unavailable"). -/
def dataCalcQc (maxDiff endDt : ℤ) (data : List Obs) (window : ℤ) : Option ℚ :=
  if startTolerancePasses maxDiff endDt window data then
    qcSlice (windowSlice endDt window data)
  else none

/-! ## Tile parser (`parse_info_tiles`, download_async.py lines 191-253)

The raw response body is a feature-collection JSON document.  Each access of a
possibly-absent key is an `Option`; a missing key raises `KeyError`, which
aborts the whole feature loop (the `try` wraps the entire `for`). -/

/-- The `properties` sub-object of one feature.  `dailyrainin` may be present
with a null value (`some none`), or absent entirely (`none`, a `KeyError`). -/
structure Props where
  dateutc : Option ℤ
  dailyrainin : Option (Option ℚ)
  localhour : Option ℕ
deriving DecidableEq, Repr

/-- One element of `data['features']`. `geometry` is the
`['geometry']['coordinates']` pair `(lon, lat)`. -/
structure Feature where
  id : Option String
  geometry : Option (ℚ × ℚ)
  properties : Option Props
deriving DecidableEq, Repr

/-- A raw tile response body as seen by `parse_info_tiles`: undecodable JSON
(`json.decoder.JSONDecodeError`), decodable JSON without a top-level
`features` key (`KeyError` before any feature is visited), or a feature
collection. -/
inductive Payload where
  | invalid
  | missingFeatures
  | featureColl (fs : List Feature)

/-- The six per-column accumulator lists of `data_dict`. -/
structure ParseState where
  siteid : List String
  lon : List ℚ
  lat : List ℚ
  dateutc : List ℤ
  precip : List (Option ℚ)
  localhour : List ℕ
deriving DecidableEq, Repr

def emptyParseState : ParseState := ⟨[], [], [], [], [], []⟩

/-- One iteration of the feature loop (download_async.py lines 226-234), in
source order: read `properties`, unpack `geometry.coordinates`, then append
`id`, `lon`, `lat`, `dateutc`, `precip`, `localhour` one field at a time.
Returns the updated column lists and whether a `KeyError` aborted the loop.
A key missing after some appends leaves the lists at unequal lengths. -/
def parseOne (s : ParseState) (f : Feature) : ParseState × Bool :=
  match f.properties with
  | none => (s, true)
  | some props =>
    match f.geometry with
    | none => (s, true)
    | some (lo, la) =>
      match f.id with
      | none => (s, true)
      | some sid =>
        let s1 : ParseState :=
          { s with siteid := s.siteid ++ [sid], lon := s.lon ++ [lo],
                   lat := s.lat ++ [la] }
        match props.dateutc with
        | none => (s1, true)
        | some d =>
          let s2 : ParseState := { s1 with dateutc := s1.dateutc ++ [d] }
          match props.dailyrainin with
          | none => (s2, true)
          | some p =>
            let s3 : ParseState := { s2 with precip := s2.precip ++ [p] }
            match props.localhour with
            | none => (s3, true)
            | some h => ({ s3 with localhour := s3.localhour ++ [h] }, false)

/-- The whole feature loop: stops at the first `KeyError`. -/
def parseLoop (s : ParseState) : List Feature → ParseState × Bool
  | [] => (s, false)
  | f :: fs =>
      let r := parseOne s f
      if r.2 then (r.1, true) else parseLoop r.1 fs

/-- Do the six column lists have equal lengths?  `pd.DataFrame(data_dict)`
raises `ValueError` when they do not. -/
def rectangular (s : ParseState) : Bool :=
  s.lon.length == s.siteid.length && s.lat.length == s.siteid.length &&
    s.dateutc.length == s.siteid.length && s.precip.length == s.siteid.length &&
    s.localhour.length == s.siteid.length

/-- Zip the six column lists into observation rows (the rows of
`pd.DataFrame(data_dict)`). -/
def zipRows : List String → List ℚ → List ℚ → List ℤ → List (Option ℚ) →
    List ℕ → List Obs
  | sid :: as, lo :: bs, la :: cs, d :: ds, p :: ps, h :: hs =>
      ⟨sid, lo, la, d, p, h⟩ :: zipRows as bs cs ds ps hs
  | _, _, _, _, _, _ => []

/-- `pd.DataFrame(data_dict)` as a list of rows: raises (`none`) when the
column lists are ragged. -/
def buildRows (s : ParseState) : Option (List Obs) :=
  if rectangular s then
    some (zipRows s.siteid s.lon s.lat s.dateutc s.precip s.localhour)
  else none

/-- `parse_info_tiles` for one tile: returns the new content written to the
tile's parquet file, or `none` when the function raises before writing (the
only such case is a ragged `data_dict` making `pd.DataFrame` raise).
A JSON decode failure or a missing top-level `features` key is caught and
leaves `data_dict` empty, so the file is still rewritten: the existing rows
are pruned at `purge_dt` and persisted with an empty incoming batch. -/
def parseInfoTiles (payload : Payload) (existing : List Obs) (purge : ℤ) :
    Option (List Obs) :=
  match payload with
  | .invalid => some (mergeTile existing [] purge)
  | .missingFeatures => some (mergeTile existing [] purge)
  | .featureColl fs =>
      match buildRows (parseLoop emptyParseState fs).1 with
      | some batch => some (mergeTile existing batch purge)
      | none => none

/-! ## Tile fetcher (`fetch_all`, download_async.py lines 59-133)

The network is a deterministic environment assigning each (attempt round,
request) pair an outcome, mirroring the classification on lines 73-80:
`ClientConnectorError` → transient (retried), `ClientResponseError` → bad
(dropped, logged), anything else → good.  A whole-attempt `TimeoutError`
(lines 120-124) is a per-round flag. -/

/-- Classification of one response. -/
inductive Outcome where
  | good (body : ℕ)
  | bad
  | transient
deriving DecidableEq, Repr

/-- One request URL: the tile coordinates parsed back out of the URL by
`create_tasks` (download_async.py lines 45-57) plus a key identifying the
request to the environment. -/
structure Url where
  x : ℤ
  y : ℤ
  key : ℕ
deriving DecidableEq, Repr

/-- The upstream network behavior: outcome of request `key` during attempt
`round`, and whether attempt `round` times out as a whole. -/
structure FetchEnv where
  outcome : ℕ → ℕ → Outcome
  timedOut : ℕ → Bool

/-- Bodies of the requests classified good in this round, in request order
(the entries of `res` that survive the `del` loop on lines 82-86). -/
def goodBodies (env : FetchEnv) (round : ℕ) (urls : List Url) : List ℕ :=
  urls.filterMap (fun u =>
    match env.outcome round u.key with
    | .good b => some b
    | _ => none)

/-- The requests classified good in this round (whose coordinates survive the
`del` loop applied to `xvals`/`yvals`). -/
def goodUrls (env : FetchEnv) (round : ℕ) (urls : List Url) : List Url :=
  urls.filter (fun u =>
    match env.outcome round u.key with
    | .good _ => true
    | _ => false)

/-- The requests classified transient in this round
(`urls = [urls[i] for i in info_dict['retry']]`, line 102). -/
def transientUrls (env : FetchEnv) (round : ℕ) (urls : List Url) : List Url :=
  urls.filter (fun u =>
    match env.outcome round u.key with
    | .transient => true
    | _ => false)

/-- What `fetch_all` hands back to `download_data`: the accumulated response
bodies (`full_res`), the coordinate lists (`xvals`, `yvals`), plus
observables used by the claims: the sleeps performed between attempts and the
number of attempt rounds executed. -/
structure FetchResult where
  bodies : List ℕ
  xvals : List ℤ
  yvals : List ℤ
  sleeps : List ℕ
  roundsUsed : ℕ
deriving DecidableEq, Repr

/-- The `for _ in range(MAX_RETRIES)` loop of `fetch_all`.  `fuel` is the
number of loop iterations left; `round` indexes the environment;
`urls` is the current request list; `fullRes` is `full_res`; `delay` starts
at 3 and doubles after each whole-attempt timeout (lines 61, 120-124).

Faithful quirk kept from the source: in the retry branch (lines 101-107)
`create_tasks` rebuilds `xvals`/`yvals` from only the transiently-failed
URLs, so the coordinate lists finally returned describe just the last round's
requests even though `full_res` holds every good body seen so far. -/
def fetchAllGo (env : FetchEnv) :
    ℕ → ℕ → List Url → List ℕ → ℕ → List ℕ → FetchResult
  | 0, _, urls, fullRes, _, sleeps =>
      { bodies := fullRes, xvals := urls.map (·.x), yvals := urls.map (·.y),
        sleeps := sleeps, roundsUsed := 0 }
  | fuel + 1, round, urls, fullRes, delay, sleeps =>
      if env.timedOut round then
        let r := fetchAllGo env fuel (round + 1) urls fullRes (delay * 2)
          (sleeps ++ [delay])
        { r with roundsUsed := r.roundsUsed + 1 }
      else
        let fullRes' := fullRes ++ goodBodies env round urls
        let retries := transientUrls env round urls
        if retries.isEmpty then
          { bodies := fullRes',
            xvals := (goodUrls env round urls).map (·.x),
            yvals := (goodUrls env round urls).map (·.y),
            sleeps := sleeps, roundsUsed := 1 }
        else
          let r := fetchAllGo env fuel (round + 1) retries fullRes' delay
            (sleeps ++ [2])
          { r with roundsUsed := r.roundsUsed + 1 }

/-- Configured retry bound, configs.py: `MAX_RETRIES = 5`. -/
def MAX_RETRIES : ℕ := 5

/-- `fetch_all(session, urls)`: run the attempt loop with the configured
retry bound, empty `full_res`, and initial backoff delay 3. -/
def fetchAll (env : FetchEnv) (urls : List Url) : FetchResult :=
  fetchAllGo env MAX_RETRIES 0 urls [] 3 []

/-- `download_data` pairs each body with coordinates by
`zip(htmls, xvals, yvals, repeat(purge_dt))` (line 189), which silently
truncates to the shortest list. -/
def downloadPairs (r : FetchResult) : List (ℕ × ℤ × ℤ) :=
  r.bodies.zip (r.xvals.zip r.yvals)

/-! ## Orchestrator tick (`run`, run_realtime.py lines 19-33)

`run()` executes the download script, then the processing script.  There is no
storage-size check anywhere on this path: the `du` helper in utils/cmd.py is
commented out (lines 14-16) and configs.py has no size ceiling.  The tick is
modelled as the sequence of steps taken, parametrized by the combined
data+log directory size and a hypothetical ceiling, to record that the
behavior does not depend on them. -/

/-- The externally visible steps a scheduled tick can take. -/
inductive TickStep where
  | checkStorage
  | download
  | runDriver
deriving DecidableEq, Repr

/-- `run()` from run_realtime.py: unconditionally execute
`download_async.py`, then `driver.py` (via `run_driver`). -/
def runTick (_dataLogSize _ceiling : ℕ) : List TickStep :=
  [TickStep.download, TickStep.runDriver]

/-! ## Snapshot write (`process_data`, driver.py lines 183-187, and
`process`, process_data.py lines 170-174) -/

/-- File operations the snapshot writer can perform. -/
inductive FileOp where
  | writeFile (path : String)
  | renameFile (src dst : String)
deriving DecidableEq, Repr

def isRename : FileOp → Bool
  | .renameFile _ _ => true
  | .writeFile _ => false

/-- The file operations performed to persist the latest-observations
snapshot: a single `output_df.to_parquet(f"{OUTPUT_DIR}/latest_obs.parquet")`
directly to the final path (driver.py lines 186-187; process_data.py lines
173-174 write `{WUNDER_DIR}/latest_obs.parquet` the same way). -/
def snapshotWriteOps (outputDir : String) : List FileOp :=
  [FileOp.writeFile (outputDir ++ "/latest_obs.parquet")]

/-! ## Concrete scenarios used by the claim theorems -/

/-- The C1 batch: requests 0 and 1 succeed immediately (bodies 10 and 11),
request 2 fails transiently once and succeeds on the retry (body 12),
request 3 fails permanently. -/
def envC1 : FetchEnv where
  outcome := fun round key =>
    if round = 0 then
      if key = 0 then .good 10
      else if key = 1 then .good 11
      else if key = 2 then .transient
      else .bad
    else .good 12
  timedOut := fun _ => false

/-- Four tile requests with distinct coordinates. -/
def urlsC1 : List Url :=
  [⟨100, 200, 0⟩, ⟨101, 201, 1⟩, ⟨102, 202, 2⟩, ⟨103, 203, 3⟩]

/-- A single request that fails transiently on the first attempt and succeeds
on the second. -/
def envC9 : FetchEnv where
  outcome := fun round _ => if round = 0 then .transient else .good 7
  timedOut := fun _ => false

def urlsC9 : List Url := [⟨1, 2, 0⟩]

/-! ## C1 -/

/-- C1: the claim states that when some requests succeed on the first attempt
and others only after a transient-failure retry, `fetch_all` returns each
eventually-successful body still paired with the tile coordinates of the URL
that produced it, so no successful tile's data is dropped or misattributed.
The code violates this: in the retry branch `create_tasks` rebuilds
`xvals`/`yvals` from only the retried URLs, so here three bodies come back
with a single coordinate pair, and `download_data`'s `zip` pairs tile
(100, 200)'s body 10 with tile (102, 202)'s coordinates and drops bodies 11
and 12 entirely. -/
theorem c1_fetch_misattribution :
    fetchAll envC1 urlsC1 =
      { bodies := [10, 11, 12], xvals := [102], yvals := [202],
        sleeps := [2], roundsUsed := 2 } ∧
    downloadPairs (fetchAll envC1 urlsC1) = [(10, 102, 202)] := by
  decide

/-! ## C9 -/

/-- C9 counterexample: the claim says the delay between retry attempts starts
at 3 seconds and doubles.  In the transient-failure retry branch the source
executes `time.sleep(2)` (line 106): for a request that fails transiently
once, the only inter-attempt sleep is 2 seconds, not 3. -/
theorem c9_counterexample :
    (fetchAll envC9 urlsC9).sleeps = [2] ∧ (2 : ℕ) ≠ 3 := by
  decide

/-- C9 (amended): whenever transient failures remain after a non-timed-out
attempt, `fetch_all` rebuilds the next attempt's request list from exactly
the transiently-failed URLs and recurses after a fixed 2-second sleep (the
3-second doubling `delay` is only used for whole-attempt timeouts), and the
loop performs at most `MAX_RETRIES` attempts in total. -/
theorem c9_retry_rebuild_and_bound :
    (∀ (env : FetchEnv) (fuel round : ℕ) (urls : List Url) (fullRes : List ℕ)
        (delay : ℕ) (sleeps : List ℕ),
        env.timedOut round = false →
        transientUrls env round urls ≠ [] →
        fetchAllGo env (fuel + 1) round urls fullRes delay sleeps =
          (let r := fetchAllGo env fuel (round + 1)
              (transientUrls env round urls)
              (fullRes ++ goodBodies env round urls) delay (sleeps ++ [2])
           { r with roundsUsed := r.roundsUsed + 1 })) ∧
    (∀ (env : FetchEnv) (urls : List Url),
        (fetchAll env urls).roundsUsed ≤ MAX_RETRIES) := by
  constructor
  · intro env fuel round urls fullRes delay sleeps hT hR
    cases h : transientUrls env round urls with
    | nil => exact absurd h hR
    | cons a as => simp [fetchAllGo, hT, h]
  · intro env urls
    suffices h : ∀ (fuel round : ℕ) (us : List Url) (fullRes : List ℕ)
        (delay : ℕ) (sleeps : List ℕ),
        (fetchAllGo env fuel round us fullRes delay sleeps).roundsUsed ≤ fuel by
      exact h MAX_RETRIES 0 urls [] 3 []
    intro fuel
    induction fuel with
    | zero => intro round us fullRes delay sleeps; simp [fetchAllGo]
    | succ n ih =>
        intro round us fullRes delay sleeps
        simp only [fetchAllGo]
        split
        · exact Nat.succ_le_succ (ih ..)
        · split
          · simp
          · exact Nat.succ_le_succ (ih ..)

/-- Witness for `c9_retry_rebuild_and_bound`: its retry-step hypothesis is
discharged at the concrete one-request scenario `envC9`. -/
theorem c9_witness :
    fetchAllGo envC9 5 0 urlsC9 [] 3 [] =
      (let r := fetchAllGo envC9 4 1 (transientUrls envC9 0 urlsC9)
          ([] ++ goodBodies envC9 0 urlsC9) 3 ([] ++ [2])
       { r with roundsUsed := r.roundsUsed + 1 }) :=
  c9_retry_rebuild_and_bound.1 envC9 4 0 urlsC9 [] 3 [] rfl (by decide)

/-! ## C5 -/

/-- C5 counterexample: the claim says a storage-size guard is evaluated
before the fetch phase of every tick, aborting fatally when the data+log
size exceeds the ceiling.  With a size (10^9) vastly exceeding the ceiling
(1), the tick still performs no storage check and proceeds straight to the
download: `run()` contains no guard (`du` in utils/cmd.py is commented out). -/
theorem c5_counterexample :
    TickStep.checkStorage ∉ runTick 1000000000 1 ∧
    runTick 1000000000 1 = [TickStep.download, TickStep.runDriver] := by
  decide

/-- C5 (amended): no storage-size guard exists on the scheduled tick path;
every tick unconditionally runs the download script and then the processing
script, regardless of directory size or any ceiling. -/
theorem c5_no_storage_guard :
    ∀ size ceiling : ℕ,
      runTick size ceiling = [TickStep.download, TickStep.runDriver] :=
  fun _ _ => rfl

/-! ## C6 -/

/-- C6 counterexample: the claim says every snapshot write goes through a
temporary file followed by a rename.  The snapshot write path performs a
single direct `to_parquet` to the final artifact path and no rename at all. -/
theorem c6_counterexample :
    (snapshotWriteOps "output").any isRename = false ∧
    snapshotWriteOps "output" =
      [FileOp.writeFile "output/latest_obs.parquet"] := by
  decide

/-- C6 (amended): the latest-observations snapshot is persisted by writing
directly (in place) to the final artifact path; no temporary file is created
and no rename is performed, so the replacement is not atomic. -/
theorem c6_direct_snapshot_write :
    ∀ dir : String,
      snapshotWriteOps dir = [FileOp.writeFile (dir ++ "/latest_obs.parquet")] ∧
      (snapshotWriteOps dir).any isRename = false :=
  fun _ => ⟨rfl, rfl⟩

/-! ## C2 -/

/-- A sample observation re-fetched identically in two consecutive cycles
(the upstream windows overlap, so exact refetches are routine). -/
def obsA : Obs := ⟨"KORD1", 1, 2, 100, some 1, 6⟩

/-- C2 counterexample: the claim says no merge operation leaves two records
with the same `(siteid, timestamp)` key.  The per-tile read-modify-write is a
bare `pd.concat` followed by the purge filter — no dedup at all — so merging
a batch containing `obsA` into a store already holding `obsA` leaves the key
`("KORD1", 100)` present twice. -/
theorem c2_counterexample :
    ¬ (mergeTile [obsA] [obsA] 0).Pairwise
        (fun a b => obsKey a ≠ obsKey b) := by
  intro h
  have e : mergeTile [obsA] [obsA] 0 = [obsA, obsA] := rfl
  rw [e] at h
  exact (List.pairwise_cons.mp h).1 obsA (List.mem_cons_self _ _) rfl

/-- Every member of `dedupFirstAux seen l` comes from `l` and was not
already seen. -/
theorem mem_of_mem_dedupFirstAux :
    ∀ (l seen : List Obs) (x : Obs),
      x ∈ dedupFirstAux seen l → x ∈ l ∧ x ∉ seen := by
  intro l
  induction l with
  | nil => intro seen x hx; simp [dedupFirstAux] at hx
  | cons a as ih =>
      intro seen x hx
      rw [dedupFirstAux] at hx
      by_cases ha : a ∈ seen
      · rw [if_pos ha] at hx
        obtain ⟨h1, h2⟩ := ih seen x hx
        exact ⟨List.mem_cons_of_mem a h1, h2⟩
      · rw [if_neg ha] at hx
        rcases List.mem_cons.mp hx with h | h
        · exact ⟨h ▸ List.mem_cons_self a as, h ▸ ha⟩
        · obtain ⟨h1, h2⟩ := ih (a :: seen) x h
          exact ⟨List.mem_cons_of_mem a h1,
            fun hxs => h2 (List.mem_cons_of_mem a hxs)⟩

/-- `dedupFirstAux` produces a duplicate-free list. -/
theorem nodup_dedupFirstAux :
    ∀ (l seen : List Obs), (dedupFirstAux seen l).Nodup := by
  intro l
  induction l with
  | nil => intro seen; simp [dedupFirstAux]
  | cons a as ih =>
      intro seen
      rw [dedupFirstAux]
      by_cases ha : a ∈ seen
      · rw [if_pos ha]; exact ih seen
      · rw [if_neg ha]
        refine List.nodup_cons.mpr ⟨fun hmem => ?_, ih (a :: seen)⟩
        exact (mem_of_mem_dedupFirstAux as (a :: seen) a hmem).2
          (List.mem_cons_self a seen)

/-- C2 (amended): the per-tile read-modify-write applies no deduplication, so
two records with equal `(siteid, timestamp)` can both survive it (see the
counterexample); the cross-tile merged-store build deduplicates on full-row
equality, so the merged store never contains two fully identical records
(records that agree only on the key but differ in another field can still
both survive). -/
theorem c2_merged_store_nodup :
    ∀ tiles : List (List Obs), (mergedStore tiles).Nodup := by
  intro tiles
  have h1 : (dedupFirst tiles.flatten).Nodup := nodup_dedupFirstAux _ []
  have h2 : ((dedupFirst tiles.flatten).mergeSort obsLe).Nodup :=
    ((List.mergeSort_perm (dedupFirst tiles.flatten) obsLe).nodup_iff).mpr h1
  exact h2.filter _

/-! ## C3 -/

/-- The reset-correction scenario of the claim: precip series
`[0.10, 0.20, 0.05, 0.15]` with local hours `[23, 23, 0, 0]`, observed at
one-hour cadence so the 180-minute window's start tolerance passes. -/
def c3data : List Obs :=
  [⟨"S3", 0, 0, 0, some (1/10), 23⟩,
   ⟨"S3", 0, 0, 60, some (1/5), 23⟩,
   ⟨"S3", 0, 0, 120, some (1/20), 0⟩,
   ⟨"S3", 0, 0, 180, some (3/20), 0⟩]

unseal Rat.add Rat.sub Rat.mul Rat.inv in
/-- C3: on the series `[0.10, 0.20, 0.05, 0.15]` with local hours
`[23, 23, 0, 0]` (a single negative step crossing local hour 23 → 0) the QC
engine rebases the post-reset values by the pre-reset maximum 0.20 and
returns exactly `(0.20 + 0.15) - 0.10 = 0.25` for the window. -/
theorem c3_reset_correction :
    dataCalcQc MAX_DIFF_MINUTES 180 c3data 180 = some (1/4) := by
  decide

/-! ## C7 -/

/-- Folding `min` over a list of values all above a bound stays above the
bound. -/
theorem lt_foldl_min {m : ℤ} :
    ∀ (rest : List ℤ) (d : ℤ), m < d → (∀ x ∈ rest, m < x) →
      m < rest.foldl min d := by
  intro rest
  induction rest with
  | nil => intro d hd _; simpa using hd
  | cons a as ih =>
      intro d hd h
      simp only [List.foldl_cons]
      exact ih (min d a) (lt_min hd (h a (List.mem_cons_self a as)))
        (fun x hx => h x (List.mem_cons_of_mem a hx))

/-- C7: whenever every observation of the site's history lies farther than
`maxDiff` minutes from the ideal window start `end - w` (in particular when
the nearest one does), the QC engine returns "unavailable" (`none`) for the
window and never a computed accumulation. -/
theorem c7_too_old_unavailable :
    ∀ (maxDiff endDt window : ℤ) (data : List Obs),
      (∀ r ∈ data, maxDiff < |endDt - window - r.dateutc|) →
      dataCalcQc maxDiff endDt data window = none := by
  intro maxDiff endDt window data h
  have hfail : startTolerancePasses maxDiff endDt window data = false := by
    cases data with
    | nil => rfl
    | cons r rs =>
        simp only [startTolerancePasses, deltasStart, List.map_cons]
        rw [decide_eq_false_iff_not, not_le]
        refine lt_foldl_min _ _ (h r (List.mem_cons_self r rs)) ?_
        intro x hx
        obtain ⟨r', hr', rfl⟩ := List.mem_map.mp hx
        exact h r' (List.mem_cons_of_mem r hr')
  rw [dataCalcQc, hfail]
  rfl

/-- A one-observation history far in the past of the window start. -/
def c7data : List Obs := [⟨"S7", 0, 0, 0, some 1, 5⟩]

/-- Witness for `c7_too_old_unavailable`: a 15-minute window ending at
t = 1000 whose ideal start (985) is 985 minutes away from the only
observation, far beyond the 5-minute tolerance. -/
theorem c7_witness : dataCalcQc MAX_DIFF_MINUTES 1000 c7data 15 = none :=
  c7_too_old_unavailable MAX_DIFF_MINUTES 1000 15 c7data (by decide)

/-! ## C8 -/

/-- C8: for a window slice that passes the start-tolerance gate, two or more
negative precip steps — or exactly one negative step whose bracketing
local-hour values are neither (23, 0) nor (0, 1) — make the QC engine return
"unavailable" (`none`). -/
theorem c8_reset_anomalies_unavailable :
    ∀ (maxDiff endDt window : ℤ) (data : List Obs),
      startTolerancePasses maxDiff endDt window data = true →
      (2 ≤ (negIdxs (windowSlice endDt window data)).length ∨
        (∃ i a b, negIdxs (windowSlice endDt window data) = [i] ∧
          (windowSlice endDt window data).get? i = some a ∧
          (windowSlice endDt window data).get? (i + 1) = some b ∧
          ¬((a.localhour = 23 ∧ b.localhour = 0) ∨
            (a.localhour = 0 ∧ b.localhour = 1)))) →
      dataCalcQc maxDiff endDt data window = none := by
  intro maxDiff endDt window data htol hcond
  rw [dataCalcQc, htol]
  simp only [if_true]
  generalize hsl : windowSlice endDt window data = sl at hcond
  unfold qcSlice
  cases hsa : sliceAmount sl with
  | none => rfl
  | some amt =>
      cases hni : negIdxs sl with
      | nil =>
          rcases hcond with h2 | ⟨i, a, b, heq, _⟩
          · rw [hni] at h2; simp at h2
          · rw [hni] at heq; simp at heq
      | cons i rest =>
          cases rest with
          | nil =>
              rcases hcond with h2 | ⟨i', a, b, heq, hga, hgb, hbad⟩
              · rw [hni] at h2; simp at h2
              · rw [hni] at heq
                obtain rfl : i = i' := (List.cons.injEq .. ▸ heq).1
                dsimp only
                rw [hga, hgb]
                dsimp only
                rw [if_neg hbad]
          | cons j rest2 => rfl

/-- A series with two negative steps (0.30 → 0.20 → 0.10 → 0.15) inside a
180-minute window whose tolerance passes. -/
def c8data : List Obs :=
  [⟨"S8", 0, 0, 0, some (3/10), 1⟩,
   ⟨"S8", 0, 0, 60, some (1/5), 2⟩,
   ⟨"S8", 0, 0, 120, some (1/10), 3⟩,
   ⟨"S8", 0, 0, 180, some (3/20), 4⟩]

unseal Rat.add Rat.sub Rat.mul Rat.inv in
/-- Witness for `c8_reset_anomalies_unavailable`: the two-negative-step
series `c8data` yields "unavailable". -/
theorem c8_witness : dataCalcQc MAX_DIFF_MINUTES 180 c8data 180 = none :=
  c8_reset_anomalies_unavailable MAX_DIFF_MINUTES 180 180 c8data (by decide)
    (Or.inl (by decide))

/-! ## C4 -/

/-- A feature whose longitude (1.234) has more than two decimal places. -/
def c4feature : Feature :=
  ⟨some "S1", some (1234/1000, 5/2), some ⟨some 0, some (some 0), some 12⟩⟩

unseal Rat.add Rat.sub Rat.mul Rat.inv in
/-- C4 counterexample: the claim says emitted records carry the feature's
coordinates rounded to 2 decimal places.  The parser appends `lon`/`lat`
exactly as unpacked from `geometry.coordinates` — no rounding occurs
anywhere — so a feature at longitude 1.234 is emitted at 1.234, which
differs from its 2-decimal rounding 1.23. -/
theorem c4_counterexample :
    parseInfoTiles (.featureColl [c4feature]) [] 0 =
      some [⟨"S1", 1234/1000, 5/2, 0, some 0, 12⟩] ∧
    (1234/1000 : ℚ) ≠ round2 (1234/1000) := by
  constructor
  · decide
  · decide

/-- C4 (amended): every fully-present feature is appended to the column
lists with its `lon` and `lat` exactly equal to the feature's geographic
coordinates, at full precision (no rounding is applied). -/
theorem c4_coords_unrounded :
    ∀ (s : ParseState) (f : Feature) (p : Props) (lo la : ℚ) (sid : String)
      (d : ℤ) (pr : Option ℚ) (h : ℕ),
      f.properties = some p → f.geometry = some (lo, la) → f.id = some sid →
      p.dateutc = some d → p.dailyrainin = some pr → p.localhour = some h →
      parseOne s f =
        ({ siteid := s.siteid ++ [sid], lon := s.lon ++ [lo],
           lat := s.lat ++ [la], dateutc := s.dateutc ++ [d],
           precip := s.precip ++ [pr], localhour := s.localhour ++ [h] },
         false) := by
  intro s f p lo la sid d pr h h1 h2 h3 h4 h5 h6
  simp [parseOne, h1, h2, h3, h4, h5, h6]

/-- Witness for `c4_coords_unrounded`: applied to `c4feature` starting from
empty column lists; the emitted longitude is exactly 1.234. -/
theorem c4_witness :
    parseOne emptyParseState c4feature =
      ({ siteid := ["S1"], lon := [1234/1000], lat := [5/2], dateutc := [0],
         precip := [some 0], localhour := [12] }, false) :=
  c4_coords_unrounded emptyParseState c4feature ⟨some 0, some (some 0), some 12⟩
    (1234/1000) (5/2) "S1" 0 (some 0) 12 rfl rfl rfl rfl rfl rfl

/-! ## C10 -/

/-- A feature whose `properties` lacks `dateutc`: `siteid`, `lon`, `lat` are
appended before the `KeyError` fires, leaving the column lists ragged. -/
def c10feature : Feature :=
  ⟨some "S2", some (1, 2), some ⟨none, some (some 0), some 5⟩⟩

/-- An old record already in the tile store. -/
def obsOld : Obs := ⟨"OLD", 0, 0, -500, some 0, 3⟩

/-- C10 counterexample: the claim says a parse failure (invalid JSON or
missing expected keys) still rewrites the tile file with the retention prune
applied.  For a feature missing the `dateutc` key, three columns have been
appended when the `KeyError` fires, `pd.DataFrame(data_dict)` raises on the
ragged lists, and the tile file is not rewritten at all (result `none`). -/
theorem c10_counterexample :
    parseInfoTiles (.featureColl [c10feature]) [obsOld] 0 = none := by
  decide

/-- A complete feature, parsed without any `KeyError`. -/
def c10good : Feature :=
  ⟨some "S9", some (3, 4), some ⟨some 50, some (some 1), some 7⟩⟩

/-- If a feature parses without abort, each column list grows by exactly
one, preserving rectangularity. -/
theorem parseOne_rect (s : ParseState) (f : Feature)
    (hs : rectangular s = true) (h : (parseOne s f).2 = false) :
    rectangular (parseOne s f).1 = true := by
  rcases f with ⟨fid, fgeo, fprops⟩
  cases fprops with
  | none => simp [parseOne] at h
  | some props =>
      cases fgeo with
      | none => simp [parseOne] at h
      | some pair =>
          rcases pair with ⟨lo, la⟩
          cases fid with
          | none => simp [parseOne] at h
          | some sid =>
              rcases props with ⟨pd, pp, ph⟩
              cases pd with
              | none => simp [parseOne] at h
              | some d =>
                  cases pp with
                  | none => simp [parseOne] at h
                  | some p =>
                      cases ph with
                      | none => simp [parseOne] at h
                      | some hr =>
                          simp only [parseOne]
                          simp only [rectangular, List.length_append,
                            List.length_cons, List.length_nil,
                            Bool.and_eq_true, beq_iff_eq] at hs ⊢
                          omega

/-- If the whole feature loop finishes without abort from a rectangular
state, the final state is rectangular. -/
theorem parseLoop_rect :
    ∀ (fs : List Feature) (s : ParseState), rectangular s = true →
      (parseLoop s fs).2 = false → rectangular (parseLoop s fs).1 = true := by
  intro fs
  induction fs with
  | nil => intro s hs _; exact hs
  | cons f fs ih =>
      intro s hs h
      rw [parseLoop] at h ⊢
      cases hab : (parseOne s f).2 with
      | true => simp [hab] at h
      | false =>
          simp only [hab, if_false, Bool.false_eq_true] at h ⊢
          exact ih (parseOne s f).1 (parseOne_rect s f hs hab) h

/-- C10 (amended): an invalid-JSON payload (or one without a top-level
`features` key) still rewrites the tile file, pruning the existing records
with an effectively empty incoming batch; a feature-collection payload
rewrites the file exactly when the parse left the six column lists of equal
lengths — in particular a loop that finishes with no missing key always
rewrites — while a `KeyError` that fires after a feature's first columns
were appended leaves the lists ragged and the tile file unwritten. -/
theorem c10_parse_failure_behavior :
    (∀ (existing : List Obs) (purge : ℤ),
        parseInfoTiles .invalid existing purge =
          some (mergeTile existing [] purge) ∧
        parseInfoTiles .missingFeatures existing purge =
          some (mergeTile existing [] purge)) ∧
    (∀ (fs : List Feature) (existing : List Obs) (purge : ℤ),
        parseInfoTiles (.featureColl fs) existing purge = none ↔
          rectangular (parseLoop emptyParseState fs).1 = false) ∧
    (∀ fs : List Feature, (parseLoop emptyParseState fs).2 = false →
        rectangular (parseLoop emptyParseState fs).1 = true) := by
  refine ⟨fun existing purge => ⟨rfl, rfl⟩, ?_, ?_⟩
  · intro fs existing purge
    unfold parseInfoTiles buildRows
    cases hr : rectangular (parseLoop emptyParseState fs).1 with
    | false => simp [hr]
    | true => simp [hr]
  · intro fs h
    exact parseLoop_rect fs emptyParseState rfl h

/-- Witness for `c10_parse_failure_behavior`: its no-abort hypothesis is
discharged on the complete feature `c10good`, whose parse leaves the column
lists rectangular (so the tile file is rewritten). -/
theorem c10_witness :
    rectangular (parseLoop emptyParseState [c10good]).1 = true :=
  c10_parse_failure_behavior.2.2 [c10good] (by decide)

end WunderObs
